import Mathlib

/-!
Verification development for the nipype example script
`examples/fmri_fsl_feeds.py`: a single-subject FSL FEEDS first-level
analysis pipeline. The script's content is parameter assignment and
graph-edge declaration; we embed those declarations shallowly and prove
the specified properties about them.
-/

/-! ## String and path utilities -/

/-- Split a list of characters at every occurrence of the separator. -/
def splitChar (sep : Char) : List Char → List (List Char)
  | [] => [[]]
  | c :: rest =>
    match splitChar sep rest with
    | [] => if c = sep then [[], []] else [[c]]
    | h :: t => if c = sep then [] :: h :: t else (c :: h) :: t

/-- Split a string on the path separator, like Python's `s.split('/')`. -/
def splitPath (s : String) : List String :=
  (splitChar '/' s.data).map String.mk

/-- A path segment that `os.path.normpath` keeps as-is: neither empty,
nor the current-directory marker, nor the parent-directory marker. -/
def isNormalSeg (s : String) : Bool :=
  !(s = "" || s = "." || s = "..")

/-- Left-to-right normalisation pass of `os.path.normpath` over the
segments of an absolute path, carrying the already-normalised segments
in reverse order: empty and `.` segments are dropped, `..` pops the
previous segment (a `..` at the root of an absolute path is dropped). -/
def procSegs : List String → List String → List String
  | acc, [] => acc
  | acc, seg :: rest =>
    if seg = "" || seg = "." then procSegs acc rest
    else if seg = ".." then procSegs acc.tail rest
    else procSegs (seg :: acc) rest

/-- Normalised segments of an absolute path given as a segment list. -/
def normSegs (xs : List String) : List String :=
  (procSegs [] xs).reverse

/-- `os.path.abspath` on a relative path: join the current working
directory (an absolute path, modelled as its segment list) with the
relative path and normalise.  The script only ever resolves relative
paths, so only that branch of `abspath` is modelled. -/
def os_path_abspath (cwd : List String) (p : String) : List String :=
  normSegs (cwd ++ splitPath p)

/-- Substitute successive `%s` placeholders in a template by the given
arguments, as Python's `template % args` does; `none` when the number of
placeholders and arguments disagree (Python raises a TypeError then). -/
def percentSubstChars : List Char → List (List Char) → Option (List Char)
  | [], [] => some []
  | [], _ :: _ => none
  | '%' :: 's' :: rest, a :: as => (percentSubstChars rest as).map (a ++ ·)
  | '%' :: 's' :: _, [] => none
  | c :: rest, as => (percentSubstChars rest as).map (c :: ·)

/-- String-level `template % args`. -/
def percentSubst (t : String) (args : List String) : Option String :=
  (percentSubstChars t.data (args.map String.data)).map String.mk

/-- Python's `range(start, stop, step)` for a positive step, as the list
of its elements. -/
def pyRange (start stop step : Nat) : List Nat :=
  (List.range ((stop - start + step - 1) / step)).map (fun i => start + i * step)

/-- Python's `int()` truncation toward zero on a rational: the
numerator T-divided by the (positive) denominator. -/
def pyInt (q : ℚ) : ℤ :=
  Int.tdiv q.num q.den

/-! ## The DataGrabber data-source node

Embeds `datasource = pe.Node(interface=nio.DataGrabber(outfields=['func',
'struct']), ...)` together with the attribute assignments
`base_directory`, `template`, `template_args`, `sort_filelist` from the
script. -/

structure DataGrabberNode where
  outfields : List String
  base_directory : String
  template : String
  template_args : List (String × List (List String))
  sort_filelist : Bool
deriving Repr, DecidableEq

/-- The per-field run arguments: `info = dict(func=[['fmri']],
struct=[['structural']])`. -/
def info : List (String × List (List String)) :=
  [("func", [["fmri"]]), ("struct", [["structural"]])]

/-- The configured `datasource` node.  `base_directory` is set to
`os.path.abspath('feeds/data')`; the relative path is recorded here and
resolved by `os_path_abspath` where a claim needs it. -/
def datasource : DataGrabberNode :=
  { outfields := ["func", "struct"]
  , base_directory := "feeds/data"
  , template := "%s.nii.gz"
  , template_args := info
  , sort_filelist := true }

/-- File names a DataGrabber requests for a field: each run's argument
tuple from `template_args` substituted into `template`.  `none` when the
field has no entry in `template_args`. -/
def dgResolvedNames (dg : DataGrabberNode) (field : String) :
    Option (List (Option String)) :=
  (dg.template_args.lookup field).map
    (fun runs => runs.map (fun args => percentSubst dg.template args))

/-! ## The model specification node

Embeds `modelspec = pe.Node(interface=model.SpecifyModel(), ...)` and its
attribute assignments, in particular the `Bunch` assigned to
`subject_info`.  Onset and duration values are in seconds (integers in
the script); unset `Bunch` fields (`None` in Python) are `Option.none`. -/

structure Bunch where
  conditions : List String
  onsets : List (List Nat)
  durations : List (List Nat)
  amplitudes : Option (List (List ℚ))
  tmod : Option (List Nat)
  pmod : Option (List Nat)
  regressor_names : Option (List String)
  regressors : Option (List (List ℚ))
deriving Repr, DecidableEq

/-- The repetition time `TR = 3.` (exact in floating point). -/
def TR : ℚ := 3

/-- The single `Bunch` of `modelspec.inputs.subject_info`:
`conditions=['Visual','Auditory']`,
`onsets=[range(0,int(180*TR),60), range(0,int(180*TR),90)]`,
`durations=[[30], [45]]`, remaining fields `None`. -/
def feeds_bunch : Bunch :=
  { conditions := ["Visual", "Auditory"]
  , onsets := [ pyRange 0 (pyInt (180 * TR)).toNat 60
              , pyRange 0 (pyInt (180 * TR)).toNat 90 ]
  , durations := [[30], [45]]
  , amplitudes := none
  , tmod := none
  , pmod := none
  , regressor_names := none
  , regressors := none }

/-- `modelspec.inputs.subject_info` is a one-element list. -/
def subject_info : List Bunch := [feeds_bunch]

/-- `modelspec.inputs.high_pass_filter_cutoff = 100`. -/
def modelspec_high_pass_filter_cutoff : ℚ := 100

/-- `int(180*TR)` with `TR = 3.` evaluates to `540`. -/
theorem pyInt_180TR_toNat : (pyInt (180 * TR)).toNat = 540 := by
  have h : (180 : ℚ) * TR = 540 := by norm_num [TR]
  rw [pyInt, h]
  norm_num
  decide

/-! ## Preprocessing workflow parameters

`preproc = create_featreg_preproc(whichvol='first')` with
`preproc.inputs.inputspec.fwhm = 5` and
`preproc.inputs.inputspec.highpass = 100/TR`. -/

def preproc_fwhm : ℚ := 5

def preproc_highpass : ℚ := 100 / TR

/-! ## Model-fitting workflow parameters and contrasts

In the script a simple contrast is the 4-element list
`[name, 'T', condition_list, weight_vector]` and a composite contrast is
the 3-element list `[name, 'F', [simple, simple]]`; the heterogeneous
Python lists are embedded as an inductive type. -/

inductive Contrast where
  | simpleT (name : String) (conditions : List String) (weights : List ℤ)
  | compositeF (name : String) (members : List Contrast)
deriving Repr

/-- `cont1 = ['Visual>Baseline','T', ['Visual','Auditory'],[1,0]]`. -/
def cont1 : Contrast :=
  .simpleT "Visual>Baseline" ["Visual", "Auditory"] [1, 0]

/-- `cont2 = ['Auditory>Baseline','T', ['Visual','Auditory'],[0,1]]`. -/
def cont2 : Contrast :=
  .simpleT "Auditory>Baseline" ["Visual", "Auditory"] [0, 1]

/-- `cont3 = ['Task','F', [cont1, cont2]]`. -/
def cont3 : Contrast :=
  .compositeF "Task" [cont1, cont2]

/-- `modelfit.inputs.inputspec.contrasts = [cont1,cont2,cont3]`. -/
def modelfit_contrasts : List Contrast := [cont1, cont2, cont3]

/-- `modelfit.inputs.inputspec.interscan_interval = TR`. -/
def modelfit_interscan_interval : ℚ := TR

/-- `modelfit.inputs.inputspec.model_serial_correlations = True`. -/
def modelfit_model_serial_correlations : Bool := true

/-- The conditions named directly by a contrast (its condition list for
a simple T-contrast, nothing for a composite F-test, whose members are
inspected separately by `fMembers`). -/
def topTConds : Contrast → List String
  | .simpleT _ conds _ => conds
  | .compositeF _ _ => []

/-- The member contrasts of a composite F-test. -/
def fMembers : Contrast → List Contrast
  | .simpleT _ _ _ => []
  | .compositeF _ ms => ms

/-- Statistic tag of a contrast, the second element of the Python list. -/
def contrastStat : Contrast → String
  | .simpleT _ _ _ => "T"
  | .compositeF _ _ => "F"

/-! ## The top-level workflow graph

`l1pipeline = pe.Workflow(name="level1")` with the eight
`l1pipeline.connect(src, srcPort, dest, destPort)` calls.  Nodes are
identified by their Python variable names. -/

structure Edge where
  src : String
  srcPort : String
  dest : String
  destPort : String
deriving Repr, DecidableEq

/-- The eight `connect` calls of the script, in source order. -/
def l1edges : List Edge :=
  [ ⟨"datasource", "func", "preproc", "inputspec.func"⟩
  , ⟨"preproc", "outputspec.highpassed_files", "modelspec", "functional_runs"⟩
  , ⟨"preproc", "outputspec.motion_parameters", "modelspec", "realignment_parameters"⟩
  , ⟨"modelspec", "session_info", "modelfit", "inputspec.session_info"⟩
  , ⟨"preproc", "outputspec.highpassed_files", "modelfit", "inputspec.functional_data"⟩
  , ⟨"preproc", "outputspec.mean", "registration", "inputspec.mean_image"⟩
  , ⟨"datasource", "struct", "registration", "inputspec.anatomical_image"⟩
  , ⟨"modelfit", "outputspec.zfiles", "registration", "inputspec.source_files"⟩ ]

/-- Remove duplicates keeping the first occurrence of each element. -/
def dedupFirstAux (seen : List String) : List String → List String
  | [] => []
  | x :: xs =>
    if seen.contains x then dedupFirstAux seen xs
    else x :: dedupFirstAux (x :: seen) xs

/-- The nodes mentioned by a list of edges, with duplicates removed,
in order of first appearance. -/
def graphNodes (es : List Edge) : List String :=
  dedupFirstAux [] (es.flatMap (fun e => [e.src, e.dest]))

/-! ## Node ports

The `datasource` node's output ports are its declared `outfields`.  The
other four nodes are instances of workflows and interfaces defined in
the nipype library outside this file; the spec describes each as
exposing named input/output ports, and the port lists below record
those ports (workflow ports are reached through the workflow's
`inputspec`/`outputspec` utility nodes, hence the dotted names). -/

/-- Modelled from the spec: the input ports of the preprocessing
workflow returned by `create_featreg_preproc`, whose definition is not
in this file's sources; the spec says it "holds scalar parameters
(smoothing kernel width, high-pass cutoff ...) and exposes named
input/output ports". -/
def preproc_in_ports : List String :=
  ["inputspec.func", "inputspec.fwhm", "inputspec.highpass"]

/-- Modelled from the spec: the output ports of the preprocessing
workflow returned by `create_featreg_preproc`. -/
def preproc_out_ports : List String :=
  [ "outputspec.reference", "outputspec.motion_parameters"
  , "outputspec.realigned_files", "outputspec.motion_plots"
  , "outputspec.mask", "outputspec.smoothed_files"
  , "outputspec.highpassed_files", "outputspec.mean" ]

/-- Modelled from the spec: the input ports of the `SpecifyModel`
interface (nipype `algorithms.modelgen`, not in this file's sources);
per the spec it "holds experimental-design metadata". -/
def modelspec_in_ports : List String :=
  [ "functional_runs", "realignment_parameters", "subject_info"
  , "input_units", "time_repetition", "high_pass_filter_cutoff"
  , "parameter_source", "outlier_files" ]

/-- Modelled from the spec: the output ports of `SpecifyModel`. -/
def modelspec_out_ports : List String := ["session_info"]

/-- Modelled from the spec: the input ports of the model-fitting
workflow returned by `create_modelfit_workflow`. -/
def modelfit_in_ports : List String :=
  [ "inputspec.session_info", "inputspec.interscan_interval"
  , "inputspec.contrasts", "inputspec.film_threshold"
  , "inputspec.functional_data", "inputspec.bases"
  , "inputspec.model_serial_correlations" ]

/-- Modelled from the spec: the output ports of the model-fitting
workflow returned by `create_modelfit_workflow`. -/
def modelfit_out_ports : List String :=
  [ "outputspec.copes", "outputspec.varcopes", "outputspec.dof_file"
  , "outputspec.pfiles", "outputspec.zfiles"
  , "outputspec.parameter_estimates" ]

/-- Modelled from the spec: the input ports of the registration
workflow returned by `create_reg_workflow`; per the spec it "holds
references to standard-space template images and a configuration file
name". -/
def registration_in_ports : List String :=
  [ "inputspec.source_files", "inputspec.mean_image"
  , "inputspec.anatomical_image", "inputspec.target_image"
  , "inputspec.target_image_brain", "inputspec.config_file" ]

/-- Modelled from the spec: the output ports of the registration
workflow returned by `create_reg_workflow`. -/
def registration_out_ports : List String :=
  [ "outputspec.func2anat_transform", "outputspec.anat2target_transform"
  , "outputspec.transformed_files", "outputspec.transformed_mean" ]

/-- Input ports of each node of the top-level graph. -/
def nodeInPorts : String → List String
  | "datasource" => []
  | "preproc" => preproc_in_ports
  | "modelspec" => modelspec_in_ports
  | "modelfit" => modelfit_in_ports
  | "registration" => registration_in_ports
  | _ => []

/-- Output ports of each node of the top-level graph; the
`datasource` node's outputs are its `outfields` declared in the script. -/
def nodeOutPorts : String → List String
  | "datasource" => datasource.outfields
  | "preproc" => preproc_out_ports
  | "modelspec" => modelspec_out_ports
  | "modelfit" => modelfit_out_ports
  | "registration" => registration_out_ports
  | _ => []

/-- Every edge's source port exists among its source node's output
ports and its destination port among its destination node's input
ports. -/
def edgePortsExist (es : List Edge) : Bool :=
  es.all (fun e =>
    (nodeOutPorts e.src).contains e.srcPort &&
    (nodeInPorts e.dest).contains e.destPort)

/-! ## Acyclicity

A graph is acyclic when no node reaches itself through a nonempty chain
of edges. -/

/-- One edge step of the graph: an edge from `a` to `b` is declared. -/
def edgeStep (es : List Edge) (a b : String) : Prop :=
  ∃ e ∈ es, e.src = a ∧ e.dest = b

/-- Acyclicity: no node reaches itself by a nonempty edge chain. -/
def acyclicGraph (es : List Edge) : Prop :=
  ∀ v, ¬ Relation.TransGen (edgeStep es) v v

/-- A topological rank of the five pipeline nodes. -/
def nodeRank (v : String) : Nat :=
  if v = "datasource" then 0
  else if v = "preproc" then 1
  else if v = "modelspec" then 2
  else if v = "modelfit" then 3
  else 4

/-- Every declared edge strictly increases `nodeRank`. -/
theorem l1edges_rank_mono :
    ∀ e ∈ l1edges, nodeRank e.src < nodeRank e.dest := by decide

/-- The top-level graph's edges are acyclic: along any nonempty edge
chain the topological rank strictly increases, so no chain returns to
its start. -/
theorem l1edges_acyclic : acyclicGraph l1edges := by
  intro v hv
  have mono : ∀ a b, Relation.TransGen (edgeStep l1edges) a b →
      nodeRank a < nodeRank b := by
    intro a b h
    induction h with
    | single hs =>
      obtain ⟨e, he, hs1, hs2⟩ := hs
      subst hs1; subst hs2
      exact l1edges_rank_mono e he
    | tail _ hs ih =>
      obtain ⟨e, he, hs1, hs2⟩ := hs
      subst hs1; subst hs2
      exact lt_trans ih (l1edges_rank_mono e he)
  exact lt_irrefl _ (mono v v hv)

/-! ## Imports, constructed objects and pipeline configuration -/

/-- The workflow constructors imported from `nipype.workflows.fmri.fsl`
in the script's import list. -/
def importedWorkflowConstructors : List String :=
  [ "create_featreg_preproc", "create_modelfit_workflow"
  , "create_fixed_effects_flow", "create_reg_workflow" ]

/-- The workflow constructors the script actually calls:
`create_featreg_preproc(whichvol='first')`,
`create_modelfit_workflow()`, `create_reg_workflow()`. -/
def calledWorkflowConstructors : List String :=
  [ "create_featreg_preproc", "create_modelfit_workflow"
  , "create_reg_workflow" ]

/-- The interface-wrapping nodes the script constructs with `pe.Node`,
as (variable name, interface class) pairs. -/
def constructedInterfaceNodes : List (String × String) :=
  [("datasource", "DataGrabber"), ("modelspec", "SpecifyModel")]

/-- `registration.inputs.inputspec` assignments: the two standard-space
template images and the registration configuration file name. -/
def registration_target_image : String := "MNI152_T1_2mm.nii.gz"

def registration_target_image_brain : String := "MNI152_T1_2mm_brain.nii.gz"

def registration_config_file : String := "T1_2_MNI152_2mm"

/-- `l1pipeline.base_dir = os.path.abspath('./fsl_feeds/workingdir')`,
as a function of the current working directory's segment list. -/
def l1pipeline_base_dir (cwd : List String) : List String :=
  os_path_abspath cwd "./fsl_feeds/workingdir"

/-- `l1pipeline.config` crash-dump directory
`os.path.abspath('./fsl_feeds/crashdumps')`. -/
def l1pipeline_crashdump_dir (cwd : List String) : List String :=
  os_path_abspath cwd "./fsl_feeds/crashdumps"

/-! ## Module-level effects and the entry point

Loading the module performs all node construction and attribute
assignment; the single `l1pipeline.run()` call sits under the
`if __name__ == '__main__':` guard and takes no arguments. -/

inductive ScriptAction where
  | constructAndConfigure
  | runPipeline
deriving Repr, DecidableEq

/-- The actions the script performs, as a function of whether it is
executed directly (`__name__ == '__main__'`) or merely imported:
construction and configuration always happen; `l1pipeline.run()` is
appended exactly under the main guard. -/
def scriptActions (isMain : Bool) : List ScriptAction :=
  [ScriptAction.constructAndConfigure] ++
    (if isMain then [ScriptAction.runPipeline] else [])

/-! ## Path normalisation lemmas -/

/-- Processing a segment list extended on the right splits into two
passes. -/
theorem procSegs_append (acc : List String) (xs ys : List String) :
    procSegs acc (xs ++ ys) = procSegs (procSegs acc xs) ys := by
  induction xs generalizing acc with
  | nil => rfl
  | cons x xs ih =>
    simp only [List.cons_append, procSegs]
    by_cases h1 : x = "" || x = "."
    · simp only [h1, if_true]; exact ih acc
    · simp only [h1, if_false]
      by_cases h2 : x = ".."
      · simp only [h2, if_true]; exact ih acc.tail
      · simp only [h2, if_false]; exact ih (x :: acc)

/-- On a list of normal segments the normalisation pass just reverses
onto the accumulator. -/
theorem procSegs_normal (xs : List String) (acc : List String)
    (h : xs.all isNormalSeg = true) :
    procSegs acc xs = xs.reverse ++ acc := by
  induction xs generalizing acc with
  | nil => rfl
  | cons x xs ih =>
    simp only [List.all_cons, Bool.and_eq_true] at h
    obtain ⟨hx, hxs⟩ := h
    simp only [isNormalSeg, Bool.not_eq_true', Bool.or_eq_false_iff,
      decide_eq_false_iff_not] at hx
    simp only [procSegs]
    have h1 : (x = "" || x = ".") = false := by
      simp [hx.1.1, hx.1.2]
    have h2 : (x = "..") = false := by simp [hx.2]
    rw [if_neg (by simp [hx.1.1, hx.1.2]), if_neg (by simp [hx.2])]
    rw [ih (x :: acc) hxs]
    simp

/-- Processing a `.` segment leaves the accumulator unchanged. -/
theorem procSegs_dot (acc : List String) (rest : List String) :
    procSegs acc ("." :: rest) = procSegs acc rest := by
  simp [procSegs]

/-- Processing a normal segment pushes it onto the accumulator. -/
theorem procSegs_push (acc rest : List String) (s : String)
    (hs : isNormalSeg s = true) :
    procSegs acc (s :: rest) = procSegs (s :: acc) rest := by
  simp only [isNormalSeg, Bool.not_eq_true', Bool.or_eq_false_iff,
    decide_eq_false_iff_not] at hs
  simp [procSegs, hs.1.1, hs.1.2, hs.2]

/-- Resolving a `./a/b`-shaped relative path against a cwd made of
normal segments appends the two trailing segments to the cwd. -/
theorem abspath_dot_two (cwd : List String) (a b : String)
    (hc : cwd.all isNormalSeg = true)
    (ha : isNormalSeg a = true) (hb : isNormalSeg b = true) :
    normSegs (cwd ++ [".", a, b]) = cwd ++ [a, b] := by
  unfold normSegs
  rw [procSegs_append [] cwd [".", a, b], procSegs_normal cwd [] hc,
    procSegs_dot, procSegs_push _ _ _ ha, procSegs_push _ _ _ hb]
  simp [procSegs]

/-! ## Claim theorems -/

/-- C1, counterexample: the configured `subject_info` `Bunch` does not
have three onset entries and three duration entries; `onsets` and
`durations` each have exactly two entries. -/
theorem C1_counterexample :
    ¬ (feeds_bunch.onsets.length = 3 ∧ feeds_bunch.durations.length = 3) := by
  simp [feeds_bunch]

/-- C1, amended: the model specification's `subject_info` record
declares exactly two condition names ("Visual" and "Auditory"), two
onset list entries and two duration list entries, so the number of
onset/duration entries matches the number of declared conditions. -/
theorem C1_model_spec_counts :
    feeds_bunch.conditions = ["Visual", "Auditory"] ∧
    feeds_bunch.conditions.length = 2 ∧
    feeds_bunch.onsets.length = 2 ∧
    feeds_bunch.durations.length = 2 ∧
    feeds_bunch.onsets.length = feeds_bunch.conditions.length ∧
    feeds_bunch.durations.length = feeds_bunch.conditions.length ∧
    subject_info = [feeds_bunch] :=
  ⟨rfl, rfl, rfl, rfl, rfl, rfl, rfl⟩

/-- C2, counterexample: the data-discovery step does not request
`func.nii.gz` for the field "func"; the template argument substituted
is "fmri", not the field name. -/
theorem C2_counterexample :
    ¬ (dgResolvedNames datasource "func" = some [some "func.nii.gz"]) := by
  decide

/-- C2, amended: for each declared field the data-discovery step
substitutes that field's template argument from `info` — "fmri" for
"func" and "structural" for "struct" — into the fixed template
`%s.nii.gz`, so it requests `fmri.nii.gz` and `structural.nii.gz`
under the data directory, not `<field>.nii.gz`. -/
theorem C2_template_resolution :
    datasource.outfields = ["func", "struct"] ∧
    datasource.template = "%s.nii.gz" ∧
    dgResolvedNames datasource "func" = some [some "fmri.nii.gz"] ∧
    dgResolvedNames datasource "struct" = some [some "structural.nii.gz"] := by
  decide

/-- C3: the top-level graph's eight declared edges form an acyclic
graph, and every edge's source output port and destination input port
exist on the respective endpoint nodes. -/
theorem C3_graph_wellformed :
    l1edges.length = 8 ∧
    acyclicGraph l1edges ∧
    edgePortsExist l1edges = true :=
  ⟨rfl, l1edges_acyclic, by decide⟩

/-- C4: the preprocessing workflow is configured with smoothing kernel
width `fwhm = 5` and high-pass cutoff `100/TR` which, with `TR = 3`,
equals `100/3`. -/
theorem C4_preproc_params :
    preproc_fwhm = 5 ∧
    TR = 3 ∧
    preproc_highpass = 100 / TR ∧
    preproc_highpass = 100 / 3 := by
  refine ⟨rfl, rfl, rfl, ?_⟩
  norm_num [preproc_highpass, TR]

/-- C5: the contrast list is exactly the three entries `cont1`,
`cont2`, `cont3`: two simple T-contrasts over the conditions
`["Visual","Auditory"]` with weights `[1,0]` and `[0,1]`, and one
composite F-test "Task" whose members are exactly those two simple
contrasts; every condition named in a T-contrast (directly or as a
member of the F-test) is among the conditions declared in the model
specification. -/
theorem C5_contrasts :
    modelfit_contrasts =
      [ Contrast.simpleT "Visual>Baseline" ["Visual", "Auditory"] [1, 0]
      , Contrast.simpleT "Auditory>Baseline" ["Visual", "Auditory"] [0, 1]
      , Contrast.compositeF "Task" [cont1, cont2] ] ∧
    modelfit_contrasts.map contrastStat = ["T", "T", "F"] ∧
    fMembers cont3 = [cont1, cont2] ∧
    (modelfit_contrasts.all (fun c =>
      (topTConds c).all (fun cond => feeds_bunch.conditions.contains cond) &&
      (fMembers c).all (fun m =>
        (topTConds m).all (fun cond => feeds_bunch.conditions.contains cond)))) = true :=
  ⟨rfl, rfl, rfl, rfl⟩

/-- C6: the top-level graph wires the datasource node into exactly the
four externally-defined processing stages (preprocessing, model
specification, model fitting, registration) and contains no other
node; the fixed-effects flow constructor is imported but never called,
and no fixed-effects node appears in the graph. -/
theorem C6_stages :
    graphNodes l1edges =
      ["datasource", "preproc", "modelspec", "modelfit", "registration"] ∧
    (graphNodes l1edges).filter (fun v => v ≠ "datasource") =
      ["preproc", "modelspec", "modelfit", "registration"] ∧
    ((graphNodes l1edges).filter (fun v => v ≠ "datasource")).length = 4 ∧
    "create_fixed_effects_flow" ∈ importedWorkflowConstructors ∧
    "create_fixed_effects_flow" ∉ calledWorkflowConstructors ∧
    calledWorkflowConstructors =
      importedWorkflowConstructors.filter (fun c => c ≠ "create_fixed_effects_flow") := by
  decide

/-- C7: merely loading the module constructs and configures all nodes
and edges but never runs the pipeline; the argument-less
`l1pipeline.run()` is performed exactly when the script is executed
directly as the main program (`scriptActions true` and
`scriptActions false` are the only two cases). -/
theorem C7_main_guard :
    scriptActions false = [ScriptAction.constructAndConfigure] ∧
    scriptActions true =
      [ScriptAction.constructAndConfigure, ScriptAction.runPipeline] ∧
    (scriptActions false).contains ScriptAction.runPipeline = false ∧
    (scriptActions true).contains ScriptAction.runPipeline = true := by
  decide

/-- C8: no data-sink node is constructed (no constructed interface node
wraps a `DataSink`) or connected into the graph, and the only output
directories configured are the working directory
`./fsl_feeds/workingdir` and the crash-dump directory
`./fsl_feeds/crashdumps`, resolved against the current working
directory (absolute, given by its segment list). -/
theorem C8_outputs (cwd : List String) (hc : cwd.all isNormalSeg = true) :
    l1pipeline_base_dir cwd = cwd ++ ["fsl_feeds", "workingdir"] ∧
    l1pipeline_crashdump_dir cwd = cwd ++ ["fsl_feeds", "crashdumps"] ∧
    (constructedInterfaceNodes.all (fun p => !(p.2 == "DataSink"))) = true ∧
    (l1edges.all (fun e => !(e.src == "datasink") && !(e.dest == "datasink"))) = true ∧
    "datasink" ∉ graphNodes l1edges := by
  refine ⟨?_, ?_, by decide, by decide, by decide⟩
  · show normSegs (cwd ++ splitPath "./fsl_feeds/workingdir") = _
    have h : splitPath "./fsl_feeds/workingdir" = [".", "fsl_feeds", "workingdir"] := by
      decide
    rw [h]
    exact abspath_dot_two cwd _ _ hc (by decide) (by decide)
  · show normSegs (cwd ++ splitPath "./fsl_feeds/crashdumps") = _
    have h : splitPath "./fsl_feeds/crashdumps" = [".", "fsl_feeds", "crashdumps"] := by
      decide
    rw [h]
    exact abspath_dot_two cwd _ _ hc (by decide) (by decide)

/-- C8, witness: the output-directory resolution at the concrete
working directory `/home/user`. -/
theorem C8_outputs_witness :
    l1pipeline_base_dir ["home", "user"] =
      ["home", "user", "fsl_feeds", "workingdir"] ∧
    l1pipeline_crashdump_dir ["home", "user"] =
      ["home", "user", "fsl_feeds", "crashdumps"] ∧
    (constructedInterfaceNodes.all (fun p => !(p.2 == "DataSink"))) = true ∧
    (l1edges.all (fun e => !(e.src == "datasink") && !(e.dest == "datasink"))) = true ∧
    "datasink" ∉ graphNodes l1edges :=
  C8_outputs ["home", "user"] (by decide)

/-- C9: the two high-pass parameters set in the file are numerically
different: the preprocessing workflow's highpass input is `100/3`
while the model-specification node's cutoff is `100`, and
`100/3 ≠ 100`. -/
theorem C9_highpass_values_differ :
    preproc_highpass = 100 / 3 ∧
    modelspec_high_pass_filter_cutoff = 100 ∧
    preproc_highpass ≠ modelspec_high_pass_filter_cutoff := by
  refine ⟨?_, rfl, ?_⟩ <;> norm_num [preproc_highpass,
    modelspec_high_pass_filter_cutoff, TR]

/-- C10: in the configured `subject_info`, the "Visual" condition has
exactly 9 onsets (0, 60, ..., 480, from `range(0, int(180*TR), 60)`
with `int(180*3.) = 540`) and the "Auditory" condition exactly 6
onsets (0, 90, ..., 450), while each condition carries exactly one
duration entry (`[30]` and `[45]`), so per-condition onset and
duration counts differ. -/
theorem C10_condition_counts :
    (pyInt (180 * TR)).toNat = 540 ∧
    feeds_bunch.onsets =
      [[0, 60, 120, 180, 240, 300, 360, 420, 480],
       [0, 90, 180, 270, 360, 450]] ∧
    feeds_bunch.onsets.map List.length = [9, 6] ∧
    feeds_bunch.durations = [[30], [45]] ∧
    feeds_bunch.durations.map List.length = [1, 1] ∧
    ((feeds_bunch.onsets.zip feeds_bunch.durations).all
      (fun p => p.1.length != p.2.length)) = true := by
  have h : feeds_bunch.onsets =
      [[0, 60, 120, 180, 240, 300, 360, 420, 480],
       [0, 90, 180, 270, 360, 450]] := by
    simp only [feeds_bunch, pyInt_180TR_toNat]
    decide
  refine ⟨pyInt_180TR_toNat, h, ?_, rfl, rfl, ?_⟩
  · rw [h]; decide
  · rw [h]; decide


